import Mathlib

/-!
Verification of the CesiumVectorTile terrain components.

Part 1 embeds `GoogleEarthEnterpriseTerrainProvider` and its `TerrainCache`
(`src/cesium/Core/isCrossOriginUrl.js`): the cache with its opportunistic
`tidy`, the terrain-state machine (`UNKNOWN`/`NONE`/`SELF`/`PARENT`) and the
synchronous portion of `requestTileGeometry` together with the asynchronous
continuation handlers, as explicit state-passing functions.  External
collaborators that are not part of this repository (`JulianDate`,
`GoogleEarthEnterpriseMetadata.tileXYToQuadKey`, the network transport, the
decode task processor) are abstracted: time is passed explicitly as an
integer number of seconds, quad keys are passed as strings, fetched buffers
are opaque numeric handles, and promises are numeric identifiers allocated
from a counter.  The field `fetchCount` instruments how many times a new
fetch + decode pipeline (`fetchArrayBuffer` followed by `scheduleTask`) has
been created; the JavaScript has no such counter, it is the observation the
single-flight claims are about.

Part 2 embeds `HeightmapTerrainData` (the unnamed source file): the
element-wise height codec `getHeight`/`setHeight`, the bilinear-by-triangle
interpolation helpers, `interpolateHeight`, `upsample`, `isChildAvailable`
and the mesh-creation state transitions.  JavaScript numbers are embedded as
rationals, buffers as total functions from integer indices, and the `| 0`
truncation as truncation toward zero.  The tessellation itself
(`HeightmapTessellator`, `TaskProcessor`) is external to the repository, so
a materialized mesh is abstracted to its height decoder and exaggeration.
-/

/-- Terrain origin state of a quad-tree node (the `TerrainState` enum). -/
inductive TState where
  | unknown
  | none_
  | self_
  | parent
deriving DecidableEq, Repr

/-- An entry of `TerrainCache`: the raw packet buffer (an opaque handle) and
the `JulianDate.now()` timestamp recorded by `add`. -/
structure CacheEntry where
  buffer : ℕ
  timestamp : ℤ
deriving DecidableEq

/-- The `TerrainCache` object: a keyed map of entries plus the time of the
last completed tidy pass. -/
structure TerrainCache where
  terrainCache : String → Option CacheEntry
  lastTidy : ℤ

/-- `TerrainCache.prototype.add`: store (or overwrite) the entry for
`quadKey`, stamped with the current time. -/
def TerrainCache.add (c : TerrainCache) (now : ℤ) (quadKey : String) (buffer : ℕ) : TerrainCache :=
  { c with terrainCache := fun k => if k = quadKey then some ⟨buffer, now⟩ else c.terrainCache k }

/-- `TerrainCache.prototype.get`: if an entry exists for `quadKey`, delete it
from the cache and return its buffer; a hit consumes the entry. -/
def TerrainCache.get (c : TerrainCache) (quadKey : String) : Option ℕ × TerrainCache :=
  match c.terrainCache quadKey with
  | some result =>
      (some result.buffer,
       { c with terrainCache := fun k => if k = quadKey then none else c.terrainCache k })
  | none => (none, c)

/-- `TerrainCache.prototype.tidy`: when more than 10 seconds have elapsed
since the last tidy pass, evict every entry older than 10 seconds and record
the pass; otherwise do nothing. -/
def TerrainCache.tidy (c : TerrainCache) (now : ℤ) : TerrainCache :=
  if now - c.lastTidy > 10 then
    { terrainCache := fun k =>
        match c.terrainCache k with
        | some e => if now - e.timestamp > 10 then none else some e
        | none => none,
      lastTidy := now }
  else c

/-- The per-tile metadata record (`TileInformation` from
`GoogleEarthEnterpriseMetadata`, which lives outside this repository).  Only
the fields this provider reads and writes are modelled; `hasTerrainFlag`
abstracts the external method `info.hasTerrain()`. -/
structure TileInfo where
  terrainState : Option TState
  terrainVersion : ℤ
  ancestorHasTerrain : Bool
  hasTerrainFlag : Bool
  terrainProvider : ℕ
deriving DecidableEq

/-- Pointwise update of a string-keyed map. -/
def updateMap {α : Type} (f : String → Option α) (key : String) (v : Option α) :
    String → Option α :=
  fun k => if k = key then v else f k

/-- The mutable state of a `GoogleEarthEnterpriseTerrainProvider`: the shared
metadata table, the shared in-flight promise and request registries keyed on
the resolved fetch target, the terrain cache, a promise-id allocator and the
instrumentation counter of created fetch + decode pipelines. -/
structure ProviderState where
  tileInfo : String → Option TileInfo
  terrainPromises : String → Option ℕ
  terrainRequests : String → Option ℕ
  terrainCache : TerrainCache
  nextPromiseId : ℕ
  fetchCount : ℕ

/-- The terrain origin state of the node at key `k`: `none` when the
metadata has no record for `k`, `some none` when the record exists but its
`terrainState` is still undefined. -/
def stateOf (s : ProviderState) (k : String) : Option (Option TState) :=
  (s.tileInfo k).map TileInfo.terrainState

/-- The `switch (terrainState)` of `requestTileGeometry` that resolves the
fetch target `q` and terrain version.  The JavaScript leaves `q = quadKey`
and `terrainVersion = -1` when no case applies (the `NONE` state), and
crashes with a TypeError (`none` here) when the `PARENT` case finds no
metadata for the parent key. -/
def resolveTarget (s : ProviderState) (quadKey : String) (info : TileInfo)
    (terrainState : TState) : Option (String × ℤ) :=
  match terrainState with
  | TState.self_ => some (quadKey, info.terrainVersion)
  | TState.parent =>
      let q := quadKey.dropRight 1
      match s.tileInfo q with
      | some parentInfo => some (q, parentInfo.terrainVersion)
      | none => none
  | TState.unknown =>
      if info.hasTerrainFlag then some (quadKey, info.terrainVersion)
      else
        let q := quadKey.dropRight 1
        match s.tileInfo q with
        | some parentInfo =>
            if parentInfo.hasTerrainFlag then some (q, parentInfo.terrainVersion)
            else some (q, -1)
        | none => some (q, -1)
  | TState.none_ => some (quadKey, -1)

/-- Observable result of one `requestTileGeometry` call.  `attached q pid
isNew` is the case in which the call returns a future chained onto the
shared promise `pid` for fetch target `q`; `isNew` records whether this call
created that promise (and its fetch + decode pipeline) or joined an existing
one. -/
inductive RequestOutcome where
  | rejectedNotExist
  | resolvedFromCache (buffer : ℕ)
  | resolvedEllipsoid
  | crashed
  | throttled
  | attached (q : String) (promiseId : ℕ) (isNew : Bool)
deriving DecidableEq

/-- The synchronous body of
`GoogleEarthEnterpriseTerrainProvider.prototype.requestTileGeometry`.
`quadKey` is the result of the external `tileXYToQuadKey(x, y, level)`,
`now` the current time for the cache, and `fetchThrottled` tells whether
`fetchArrayBuffer()` returns `undefined` because the request scheduler is
saturated. -/
def requestTileGeometry (s : ProviderState) (quadKey : String) (request : ℕ) (now : ℤ)
    (fetchThrottled : Bool) : RequestOutcome × ProviderState :=
  match s.tileInfo quadKey with
  | none => (RequestOutcome.rejectedNotExist, s)
  | some info0 =>
      let terrainState := info0.terrainState.getD TState.unknown
      let info : TileInfo := { info0 with terrainState := some terrainState }
      let s1 : ProviderState := { s with tileInfo := updateMap s.tileInfo quadKey (some info) }
      match s1.terrainCache.get quadKey with
      | (some buffer, cacheAfterGet) =>
          (RequestOutcome.resolvedFromCache buffer, { s1 with terrainCache := cacheAfterGet })
      | (none, cacheAfterGet) =>
          let s2 : ProviderState := { s1 with terrainCache := cacheAfterGet.tidy now }
          if !info.ancestorHasTerrain then (RequestOutcome.resolvedEllipsoid, s2)
          else if terrainState = TState.none_ then (RequestOutcome.rejectedNotExist, s2)
          else
            match resolveTarget s2 quadKey info terrainState with
            | none => (RequestOutcome.crashed, s2)
            | some (q, terrainVersion) =>
                if terrainVersion < 0 then (RequestOutcome.rejectedNotExist, s2)
                else
                  match s2.terrainPromises q with
                  | some pid => (RequestOutcome.attached q pid false, s2)
                  | none =>
                      if fetchThrottled then (RequestOutcome.throttled, s2)
                      else
                        let pid := s2.nextPromiseId
                        (RequestOutcome.attached q pid true,
                         { s2 with
                             terrainPromises := updateMap s2.terrainPromises q (some pid),
                             terrainRequests := updateMap s2.terrainRequests q (some request),
                             nextPromiseId := pid + 1,
                             fetchCount := s2.fetchCount + 1 })

/-- One iteration of the children loop of the decode-success handler: cache
the child packet `terrainTiles[j + 1]` under `q + j.toString()`, mark the
child `PARENT`, and inherit the terrain provider when the child has none. -/
def childStep (q : String) (terrainTiles : List ℕ) (now : ℤ) (provider : ℕ)
    (s : ProviderState) (j : ℕ) : ProviderState :=
  let childKey := q ++ toString j
  match s.tileInfo childKey with
  | some child =>
      let child1 : TileInfo :=
        { child with
            terrainState := some TState.parent,
            terrainProvider := if child.terrainProvider = 0 then provider else child.terrainProvider }
      { s with
          terrainCache := s.terrainCache.add now childKey (terrainTiles.getD (j + 1) 0),
          tileInfo := updateMap s.tileInfo childKey (some child1) }
  | none => s

/-- The first half of the decode-success continuation for target `q`: mark
`q` as `SELF` (the updated record `requestedInfo1`) and cache its own tile
`terrainTiles[0]`. -/
def onFetchSuccessStart (s : ProviderState) (q : String) (requestedInfo1 : TileInfo)
    (firstTile : ℕ) (now : ℤ) : ProviderState :=
  { s with
      tileInfo := updateMap s.tileInfo q (some requestedInfo1),
      terrainCache := s.terrainCache.add now q firstTile }

/-- The decode-success continuation of the shared fetch for target `q`: mark
`q` as `SELF`, cache its tile `terrainTiles[0]`, then run the children loop
over the remaining `terrainTiles.length - 1` packets.  `none` models the
TypeError the JavaScript would raise if the metadata had no record for `q`. -/
def onFetchSuccess (s : ProviderState) (q : String) (terrainTiles : List ℕ) (now : ℤ) :
    Option ProviderState :=
  match s.tileInfo q with
  | none => none
  | some requestedInfo =>
      let requestedInfo1 : TileInfo := { requestedInfo with terrainState := some TState.self_ }
      let s1 : ProviderState := onFetchSuccessStart s q requestedInfo1 (terrainTiles.getD 0 0) now
      let provider := requestedInfo1.terrainProvider
      let count := terrainTiles.length - 1
      some ((List.range count).foldl (childStep q terrainTiles now provider) s1)

/-- The `always` continuation registered on the shared promise: remove the
shared promise and request for `q` exactly once, whatever the outcome. -/
def onSharedSettled (s : ProviderState) (q : String) : ProviderState :=
  { s with
      terrainPromises := updateMap s.terrainPromises q none,
      terrainRequests := updateMap s.terrainRequests q none }

/-- The per-caller `otherwise` continuation of `requestTileGeometry`: when
the shared request was not cancelled, mark the requesting tile `quadKey` as
`NONE`; a cancelled request leaves the state untouched (the error is simply
propagated). -/
def onCallerReject (s : ProviderState) (quadKey : String) (sharedCancelled : Bool) :
    ProviderState :=
  if sharedCancelled then s
  else
    match s.tileInfo quadKey with
    | some info =>
        { s with
            tileInfo := updateMap s.tileInfo quadKey
              (some { info with terrainState := some TState.none_ }) }
    | none => s

/-- `GoogleEarthEnterpriseTerrainProvider.prototype.getTileDataAvailable`
(availability probing), returning the boolean answer and the possibly
updated state.  The `populateSubtree` side request issued for valid but
unknown keys is external metadata loading and is not modelled. -/
def getTileDataAvailable (s : ProviderState) (quadKey : String) : Bool × ProviderState :=
  match s.tileInfo quadKey with
  | some info =>
      if !info.ancestorHasTerrain then (true, s)
      else
        let terrainState := info.terrainState
        if terrainState = some TState.none_ then (false, s)
        else
          if terrainState = none ∨ terrainState = some TState.unknown then
            let s1 : ProviderState :=
              { s with
                  tileInfo := updateMap s.tileInfo quadKey
                    (some { info with terrainState := some TState.unknown }) }
            if !info.hasTerrainFlag then
              let parentKey := quadKey.dropRight 1
              match s1.tileInfo parentKey with
              | some parentInfo => if parentInfo.hasTerrainFlag then (true, s1) else (false, s1)
              | none => (false, s1)
            else (true, s1)
          else (true, s)
  | none => (false, s)

/-! ### Part 2: HeightmapTerrainData -/

/-- JavaScript `| 0` applied to a finite number: truncation toward zero. -/
def truncJS (q : ℚ) : ℤ := if 0 ≤ q then ⌊q⌋ else -⌊-q⌋

/-- Pointwise update of a height buffer. -/
def updateZ (f : ℤ → ℚ) (key : ℤ) (v : ℚ) : ℤ → ℚ :=
  fun n => if n = key then v else f n

/-- The `getHeight` helper: read the `elementsPerHeight` buffer elements of
the sample at `index * stride` and combine them by Horner evaluation in base
`elementMultiplier`.  Big-endian scans the elements upward (first element is
the high-order digit), little-endian scans them downward. -/
def getHeight (heights : ℤ → ℚ) (elementsPerHeight : ℕ) (elementMultiplier : ℚ)
    (stride : ℕ) (isBigEndian : Bool) (index : ℤ) : ℚ :=
  let base : ℤ := index * stride
  if isBigEndian then
    (List.range elementsPerHeight).foldl
      (fun h (i : ℕ) => h * elementMultiplier + heights (base + (i : ℤ))) 0
  else
    ((List.range elementsPerHeight).reverse).foldl
      (fun h (i : ℕ) => h * elementMultiplier + heights (base + (i : ℤ))) 0

/-- The digit-extraction loop shared by both endianness branches of
`setHeight`: write `(height / divisor) | 0` at each position in turn,
subtract what was written, divide the divisor by the base, and finally store
the remaining height verbatim at `finalPos`. -/
def writeDigits (heights : ℤ → ℚ) (elementMultiplier : ℚ) (positions : List ℤ)
    (divisor height : ℚ) (finalPos : ℤ) : ℤ → ℚ :=
  match positions with
  | [] => updateZ heights finalPos height
  | p :: rest =>
      let digit : ℚ := ((truncJS (height / divisor) : ℤ) : ℚ)
      writeDigits (updateZ heights p digit) elementMultiplier rest
        (divisor / elementMultiplier) (height - digit * divisor) finalPos

/-- The `setHeight` helper: encode `height` into the `elementsPerHeight`
buffer elements of the sample at `index * stride`.  Big-endian writes the
high-order digits at positions `0, …, elementsPerHeight - 2` and stores the
remainder at position `elementsPerHeight - 1`; little-endian writes the
high-order digits at positions `elementsPerHeight - 1, …, 1` and stores the
remainder at position `0`. -/
def setHeight (heights : ℤ → ℚ) (elementsPerHeight : ℕ) (elementMultiplier divisor : ℚ)
    (stride : ℕ) (isBigEndian : Bool) (index : ℤ) (height : ℚ) : ℤ → ℚ :=
  let base : ℤ := index * stride
  if isBigEndian then
    writeDigits heights elementMultiplier
      ((List.range (elementsPerHeight - 1)).map (fun (i : ℕ) => base + (i : ℤ)))
      divisor height (base + ((elementsPerHeight - 1 : ℕ) : ℤ))
  else
    writeDigits heights elementMultiplier
      (((List.range' 1 (elementsPerHeight - 1)).reverse).map (fun (i : ℕ) => base + (i : ℤ)))
      divisor height base

/-- `triangleInterpolateHeight`: the quad is bisected from southwest to
northeast; strictly below the diagonal the lower-right triangle is used,
otherwise (including on the diagonal) the upper-left triangle. -/
def triangleInterpolateHeight (dX dY southwestHeight southeastHeight northwestHeight
    northeastHeight : ℚ) : ℚ :=
  if dY < dX then
    southwestHeight + (dX * (southeastHeight - southwestHeight)) +
      (dY * (northeastHeight - southeastHeight))
  else
    southwestHeight + (dX * (northeastHeight - northwestHeight)) +
      (dY * (northwestHeight - southwestHeight))

/-- A geographic rectangle (west, south, east, north). -/
structure Rect where
  west : ℚ
  south : ℚ
  east : ℚ
  north : ℚ

/-- The raster-path `interpolateHeight` helper: locate the cell containing
the query point, flip the row indices (the buffer stores the north row
first), decode the four corner samples and interpolate on the triangle. -/
def interpolateHeightFn (sourceHeights : ℤ → ℚ) (elementsPerHeight : ℕ)
    (elementMultiplier : ℚ) (stride : ℕ) (isBigEndian : Bool) (sourceRectangle : Rect)
    (width height : ℕ) (longitude latitude : ℚ) : ℚ :=
  let fromWest := (longitude - sourceRectangle.west) * ((width : ℚ) - 1) /
    (sourceRectangle.east - sourceRectangle.west)
  let fromSouth := (latitude - sourceRectangle.south) * ((height : ℚ) - 1) /
    (sourceRectangle.north - sourceRectangle.south)
  let westInteger0 := truncJS fromWest
  let eastInteger0 := westInteger0 + 1
  let westInteger := if (width : ℤ) ≤ eastInteger0 then (width : ℤ) - 2 else westInteger0
  let eastInteger := if (width : ℤ) ≤ eastInteger0 then (width : ℤ) - 1 else eastInteger0
  let southInteger0 := truncJS fromSouth
  let northInteger0 := southInteger0 + 1
  let southInteger := if (height : ℤ) ≤ northInteger0 then (height : ℤ) - 2 else southInteger0
  let northInteger := if (height : ℤ) ≤ northInteger0 then (height : ℤ) - 1 else northInteger0
  let dx := fromWest - (westInteger : ℚ)
  let dy := fromSouth - (southInteger : ℚ)
  let southFlipped := (height : ℤ) - 1 - southInteger
  let northFlipped := (height : ℤ) - 1 - northInteger
  let southwestHeight := getHeight sourceHeights elementsPerHeight elementMultiplier stride
    isBigEndian (southFlipped * (width : ℤ) + westInteger)
  let southeastHeight := getHeight sourceHeights elementsPerHeight elementMultiplier stride
    isBigEndian (southFlipped * (width : ℤ) + eastInteger)
  let northwestHeight := getHeight sourceHeights elementsPerHeight elementMultiplier stride
    isBigEndian (northFlipped * (width : ℤ) + westInteger)
  let northeastHeight := getHeight sourceHeights elementsPerHeight elementMultiplier stride
    isBigEndian (northFlipped * (width : ℤ) + eastInteger)
  triangleInterpolateHeight dx dy southwestHeight southeastHeight northwestHeight
    northeastHeight

/-- The mesh-path `interpolateMeshHeight` helper.  `decodeHeight i` stands
for the external `encoding.decodeHeight(buffer, i)`; a positive skirt pads
the grid with one ring of vertices, shifting the interior indices by one. -/
def interpolateMeshHeight (decodeHeight : ℤ → ℚ) (heightOffset heightScale skirtHeight : ℚ)
    (sourceRectangle : Rect) (width0 height0 : ℕ) (longitude latitude : ℚ)
    (exaggeration : ℚ) : ℚ :=
  let fromWest0 := (longitude - sourceRectangle.west) * ((width0 : ℚ) - 1) /
    (sourceRectangle.east - sourceRectangle.west)
  let fromSouth0 := (latitude - sourceRectangle.south) * ((height0 : ℚ) - 1) /
    (sourceRectangle.north - sourceRectangle.south)
  let fromWest := if skirtHeight > 0 then fromWest0 + 1 else fromWest0
  let fromSouth := if skirtHeight > 0 then fromSouth0 + 1 else fromSouth0
  let width : ℕ := if skirtHeight > 0 then width0 + 2 else width0
  let height : ℕ := if skirtHeight > 0 then height0 + 2 else height0
  let widthEdge : ℤ := if skirtHeight > 0 then (width : ℤ) - 1 else (width : ℤ)
  let westInteger0 := truncJS fromWest
  let eastInteger0 := westInteger0 + 1
  let westInteger := if widthEdge ≤ eastInteger0 then (width : ℤ) - 2 else westInteger0
  let eastInteger := if widthEdge ≤ eastInteger0 then (width : ℤ) - 1 else eastInteger0
  let heightEdge : ℤ := if skirtHeight > 0 then (height : ℤ) - 1 else (height : ℤ)
  let southInteger0 := truncJS fromSouth
  let northInteger0 := southInteger0 + 1
  let southInteger := if heightEdge ≤ northInteger0 then (height : ℤ) - 2 else southInteger0
  let northInteger := if heightEdge ≤ northInteger0 then (height : ℤ) - 1 else northInteger0
  let dx := fromWest - (westInteger : ℚ)
  let dy := fromSouth - (southInteger : ℚ)
  let southFlipped := (height : ℤ) - 1 - southInteger
  let northFlipped := (height : ℤ) - 1 - northInteger
  let southwestHeight := (decodeHeight (southFlipped * (width : ℤ) + westInteger) /
    exaggeration - heightOffset) / heightScale
  let southeastHeight := (decodeHeight (southFlipped * (width : ℤ) + eastInteger) /
    exaggeration - heightOffset) / heightScale
  let northwestHeight := (decodeHeight (northFlipped * (width : ℤ) + westInteger) /
    exaggeration - heightOffset) / heightScale
  let northeastHeight := (decodeHeight (northFlipped * (width : ℤ) + eastInteger) /
    exaggeration - heightOffset) / heightScale
  triangleInterpolateHeight dx dy southwestHeight southeastHeight northwestHeight
    northeastHeight

/-- The structure descriptor of a heightmap buffer (defaults: scale 1,
offset 0, one element per height, stride 1, multiplier 256, little-endian,
no encoding clamps — `HeightmapTessellator.DEFAULT_STRUCTURE`). -/
structure HeightmapStructure where
  heightScale : ℚ
  heightOffset : ℚ
  elementsPerHeight : ℕ
  stride : ℕ
  elementMultiplier : ℚ
  isBigEndian : Bool
  lowestEncodedHeight : Option ℚ
  highestEncodedHeight : Option ℚ

/-- A materialized terrain mesh, abstracted to what this file reads from it:
the vertex height decoder `encoding.decodeHeight(vertices, ·)` and the
exaggeration it was built with. -/
structure MeshData where
  decodeHeight : ℤ → ℚ
  exaggeration : ℚ

/-- A tiling scheme, abstracted to `tileXYToRectangle`. -/
structure TilingScheme where
  tileXYToRectangle : ℕ → ℕ → ℕ → Rect

/-- The mutable fields of a `HeightmapTerrainData` instance. -/
structure HeightmapTerrainData where
  buffer : Option (ℤ → ℚ)
  width : ℕ
  height : ℕ
  childTileMask : ℕ
  struct : HeightmapStructure
  createdByUpsampling : Bool
  skirtHeight : Option ℚ
  mesh : Option MeshData

/-- `HeightmapTerrainData.prototype.interpolateHeight`: use the mesh path
when a mesh has been materialized, otherwise decode from the raw buffer and
apply scale and offset.  (`_skirtHeight` is always assigned before `_mesh`,
and the buffer is present whenever the mesh is not, so the `getD` defaults
are never observable.) -/
def HeightmapTerrainData.interpolateHeight (td : HeightmapTerrainData) (rectangle : Rect)
    (longitude latitude : ℚ) : ℚ :=
  match td.mesh with
  | some m =>
      interpolateMeshHeight m.decodeHeight td.struct.heightOffset td.struct.heightScale
        (td.skirtHeight.getD 0) rectangle td.width td.height longitude latitude m.exaggeration
  | none =>
      let heightSample := interpolateHeightFn (td.buffer.getD (fun _ => 0))
        td.struct.elementsPerHeight td.struct.elementMultiplier td.struct.stride
        td.struct.isBigEndian rectangle td.width td.height longitude latitude
      heightSample * td.struct.heightScale + td.struct.heightOffset

/-- `CesiumMath.lerp` (external helper): `(1 - time) * p + time * q`. -/
def lerp (p q time : ℚ) : ℚ := (1 - time) * p + time * q

/-- `HeightmapTerrainData.prototype.isChildAvailable`, lifted on the mask:
start from bit 2 (northwest), add 1 for an east child, subtract 2 for a
south child, and test that bit of the mask. -/
def isChildAvailable (childTileMask thisX thisY childX childY : ℕ) : Bool :=
  let bitNumber0 := 2
  let bitNumber1 := if childX ≠ thisX * 2 then bitNumber0 + 1 else bitNumber0
  let bitNumber := if childY ≠ thisY * 2 then bitNumber1 - 2 else bitNumber1
  childTileMask &&& (1 <<< bitNumber) != 0

/-- `HeightmapTerrainData.prototype.upsample`: refuse multi-level upsampling
(a `DeveloperError`, the `Except.error` case), defer (`Except.ok none`) when
no mesh has been materialized, and otherwise resample the mesh over the
destination rectangle into a fresh buffer, clamping each sample to the
encodable range, producing a child tile marked as created by upsampling. -/
def upsample (td : HeightmapTerrainData) (tilingScheme : TilingScheme)
    (thisX thisY thisLevel descendantX descendantY descendantLevel : ℕ) :
    Except String (Option HeightmapTerrainData) :=
  let levelDifference : ℤ := (descendantLevel : ℤ) - (thisLevel : ℤ)
  if levelDifference > 1 then
    Except.error "Upsampling through more than one level at a time is not currently supported."
  else
    match td.mesh with
    | none => Except.ok none
    | some meshData =>
        let width := td.width
        let height := td.height
        let st := td.struct
        let skirtHeight := td.skirtHeight.getD 0
        let stride := st.stride
        let sourceRectangle := tilingScheme.tileXYToRectangle thisX thisY thisLevel
        let destinationRectangle :=
          tilingScheme.tileXYToRectangle descendantX descendantY descendantLevel
        let divisor := st.elementMultiplier ^ (st.elementsPerHeight - 1)
        let heights : ℤ → ℚ :=
          (List.range height).foldl (fun hs (j : ℕ) =>
            let latitude := lerp destinationRectangle.north destinationRectangle.south
              ((j : ℚ) / ((height : ℚ) - 1))
            (List.range width).foldl (fun hs2 (i : ℕ) =>
              let longitude := lerp destinationRectangle.west destinationRectangle.east
                ((i : ℚ) / ((width : ℚ) - 1))
              let heightSample0 := interpolateMeshHeight meshData.decodeHeight
                st.heightOffset st.heightScale skirtHeight sourceRectangle width height
                longitude latitude meshData.exaggeration
              let heightSample1 := match st.lowestEncodedHeight with
                | some lo => if heightSample0 < lo then lo else heightSample0
                | none => heightSample0
              let heightSample := match st.highestEncodedHeight with
                | some hi => if heightSample1 > hi then hi else heightSample1
                | none => heightSample1
              setHeight hs2 st.elementsPerHeight st.elementMultiplier divisor stride
                st.isBigEndian ((j * width + i : ℕ) : ℤ) heightSample) hs)
            (fun _ => 0)
        Except.ok (some
          { buffer := some heights,
            width := width,
            height := height,
            childTileMask := 0,
            struct := st,
            createdByUpsampling := true,
            skirtHeight := none,
            mesh := none })

/-- The state effect of `createMesh` before the task resolves: the skirt
height is computed and stored; the buffer and mesh are untouched (and stay
so when the task processor postpones the request). -/
def createMeshStart (td : HeightmapTerrainData) (skirt : ℚ) : HeightmapTerrainData :=
  { td with skirtHeight := some skirt }

/-- The state effect of the `createMesh` promise resolution: store the
materialized mesh and drop the raw buffer. -/
def createMeshComplete (td : HeightmapTerrainData) (result : MeshData) :
    HeightmapTerrainData :=
  { td with mesh := some result, buffer := none }

/-- The state effect of `_createMeshSync`: the skirt height is stored and
the raw buffer dropped; the resulting `TerrainMesh` is returned to the
caller but — unlike the asynchronous path — never assigned to `_mesh`. -/
def createMeshSyncState (td : HeightmapTerrainData) (skirt : ℚ) : HeightmapTerrainData :=
  { td with skirtHeight := some skirt, buffer := none }

/-! ### Concrete instances used by witnesses and counterexamples -/

/-- `HeightmapTessellator.DEFAULT_STRUCTURE`: scale 1, offset 0, one element
per height, stride 1, multiplier 256, little-endian, no clamps. -/
def defaultStructure : HeightmapStructure :=
  { heightScale := 1, heightOffset := 0, elementsPerHeight := 1, stride := 1,
    elementMultiplier := 256, isBigEndian := false,
    lowestEncodedHeight := none, highestEncodedHeight := none }

/-- The 2 x 2 sample raster of the spec scenario: heights 10, 20, 30, 40
stored north row first. -/
def sampleBuffer : ℤ → ℚ :=
  fun i => if i = 0 then 10 else if i = 1 then 20 else if i = 2 then 30 else
    if i = 3 then 40 else 0

/-- The 2 x 2 sample tile with the default structure and no mesh. -/
def sampleTile : HeightmapTerrainData :=
  { buffer := some sampleBuffer, width := 2, height := 2, childTileMask := 15,
    struct := defaultStructure, createdByUpsampling := false,
    skirtHeight := none, mesh := none }

/-- A trivial tiling scheme giving every tile the unit square rectangle. -/
def unitTiling : TilingScheme :=
  { tileXYToRectangle := fun _ _ _ => { west := 0, south := 0, east := 1, north := 1 } }

/-- A mesh decoding every vertex to height 0. -/
def flatMesh : MeshData := { decodeHeight := fun _ => 0, exaggeration := 1 }

/-- The sample tile after mesh materialization: buffer dropped, flat mesh. -/
def meshedTile : HeightmapTerrainData :=
  { sampleTile with buffer := none, mesh := some flatMesh, skirtHeight := some 0 }

/-- An empty terrain cache whose last tidy pass was at time 0. -/
def emptyCache : TerrainCache := { terrainCache := fun _ => none, lastTidy := 0 }

/-- A tile-information record in the terminal `SELF` state. -/
def selfInfo : TileInfo :=
  { terrainState := some TState.self_, terrainVersion := 1,
    ancestorHasTerrain := true, hasTerrainFlag := true, terrainProvider := 0 }

/-- A provider state whose metadata knows quad key `"0"` in state `SELF` and
whose registry holds a shared in-flight promise `7` for target `"0"`. -/
def providerWithPromise : ProviderState :=
  { tileInfo := fun k => if k = "0" then some selfInfo else none,
    terrainPromises := fun k => if k = "0" then some 7 else none,
    terrainRequests := fun k => if k = "0" then some 1 else none,
    terrainCache := emptyCache,
    nextPromiseId := 8,
    fetchCount := 1 }

/-! ### Theorems -/

theorem and_one_shiftLeft_bne (m b : ℕ) : (m &&& (1 <<< b) != 0) = m.testBit b := by
  rw [Nat.one_shiftLeft, Nat.and_two_pow]
  cases h : m.testBit b
  · simp
  · simp [pow_ne_zero b (two_ne_zero (α := ℕ))]

/-- C4 (amended): `isChildAvailable` tests bit 2 for child `(2x, 2y)`
(northwest, since tile y grows southward), bit 3 for `(2x+1, 2y)`
(northeast), bit 0 for `(2x, 2y+1)` (southwest) and bit 1 for
`(2x+1, 2y+1)` (southeast). -/
theorem isChildAvailable_bit_positions (mask x y : ℕ) :
    isChildAvailable mask x y (x * 2) (y * 2) = mask.testBit 2 ∧
    isChildAvailable mask x y (x * 2 + 1) (y * 2) = mask.testBit 3 ∧
    isChildAvailable mask x y (x * 2) (y * 2 + 1) = mask.testBit 0 ∧
    isChildAvailable mask x y (x * 2 + 1) (y * 2 + 1) = mask.testBit 1 := by
  have hx0 : ¬ (x * 2 ≠ x * 2) := by omega
  have hx1 : x * 2 + 1 ≠ x * 2 := by omega
  have hy0 : ¬ (y * 2 ≠ y * 2) := by omega
  have hy1 : y * 2 + 1 ≠ y * 2 := by omega
  refine ⟨?_, ?_, ?_, ?_⟩
  · simp only [isChildAvailable, if_neg hx0, if_neg hy0]
    exact and_one_shiftLeft_bne mask 2
  · simp only [isChildAvailable, if_pos hx1, if_neg hy0]
    exact and_one_shiftLeft_bne mask 3
  · simp only [isChildAvailable, if_neg hx0, if_pos hy1]
    exact and_one_shiftLeft_bne mask 0
  · simp only [isChildAvailable, if_pos hx1, if_pos hy1]
    exact and_one_shiftLeft_bne mask 1

/-- C4 counterexample: with mask 1 (only bit 0 set) and parent `(0, 0)`,
the claim says child `(0, 0)` reads bit 0 (true); the code reads bit 2
(false). -/
theorem isChildAvailable_claim_false :
    isChildAvailable 1 0 0 (0 * 2) (0 * 2) ≠ Nat.testBit 1 0 := by decide

/-- C10: whenever both `childX ≠ thisX * 2` and `childY ≠ thisY * 2` — in
particular for coordinates that are not children of `(thisX, thisY)` at
all — `isChildAvailable` returns bit 1 of the mask, the southeast child's
bit. -/
theorem isChildAvailable_nonchild_southeast (mask thisX thisY childX childY : ℕ)
    (hx : childX ≠ thisX * 2) (hy : childY ≠ thisY * 2) :
    isChildAvailable mask thisX thisY childX childY = mask.testBit 1 := by
  simp only [isChildAvailable, if_pos hx, if_pos hy]
  exact and_one_shiftLeft_bne mask 1

theorem isChildAvailable_nonchild_southeast_witness :
    isChildAvailable 2 0 0 5 7 = Nat.testBit 2 1 :=
  isChildAvailable_nonchild_southeast 2 0 0 5 7 (by decide) (by decide)

/-- C3: `triangleInterpolateHeight` uses the lower-right-triangle formula
exactly when `dY < dX` strictly, and the upper-left-triangle formula
otherwise, including on the tie `dX = dY`; both the raster path
(`interpolateHeightFn`) and the mesh path (`interpolateMeshHeight`) are
defined through this single function. -/
theorem triangleInterpolateHeight_selection (dX dY sw se nw ne : ℚ) :
    (dY < dX → triangleInterpolateHeight dX dY sw se nw ne =
      sw + (dX * (se - sw)) + (dY * (ne - se))) ∧
    (¬ dY < dX → triangleInterpolateHeight dX dY sw se nw ne =
      sw + (dX * (ne - nw)) + (dY * (nw - sw))) ∧
    triangleInterpolateHeight dX dX sw se nw ne =
      sw + (dX * (ne - nw)) + (dX * (nw - sw)) := by
  refine ⟨fun h => ?_, fun h => ?_, ?_⟩ <;>
    simp [triangleInterpolateHeight, *, lt_irrefl]

theorem triangleInterpolateHeight_selection_witness :
    ((0:ℚ) < 1 ∧ triangleInterpolateHeight 1 0 2 3 4 5 = 2 + (1 * (3 - 2)) + (0 * (5 - 3))) ∧
    (¬ (1:ℚ) < 0 ∧ triangleInterpolateHeight 0 1 2 3 4 5 = 2 + (0 * (5 - 4)) + (1 * (4 - 2))) ∧
    triangleInterpolateHeight 1 1 2 3 4 5 = 2 + (1 * (5 - 4)) + (1 * (4 - 2)) :=
  ⟨⟨by norm_num, (triangleInterpolateHeight_selection 1 0 2 3 4 5).1 (by norm_num)⟩,
   ⟨by norm_num, (triangleInterpolateHeight_selection 0 1 2 3 4 5).2.1 (by norm_num)⟩,
   (triangleInterpolateHeight_selection 1 1 2 3 4 5).2.2⟩

/-- C7: `upsample` rejects multi-level upsampling with a `DeveloperError`,
and returns `undefined` (here `Except.ok none`), deferring the operation,
when the parent tile has no materialized mesh. -/
theorem upsample_preconditions (td : HeightmapTerrainData) (ts : TilingScheme)
    (thisX thisY thisLevel descendantX descendantY descendantLevel : ℕ) :
    ((descendantLevel : ℤ) - (thisLevel : ℤ) > 1 →
      upsample td ts thisX thisY thisLevel descendantX descendantY descendantLevel =
        Except.error
          "Upsampling through more than one level at a time is not currently supported.") ∧
    (¬ (descendantLevel : ℤ) - (thisLevel : ℤ) > 1 → td.mesh = none →
      upsample td ts thisX thisY thisLevel descendantX descendantY descendantLevel =
        Except.ok none) := by
  constructor
  · intro h
    simp [upsample, h]
  · intro h hm
    simp [upsample, h, hm]

theorem upsample_preconditions_witness :
    upsample sampleTile unitTiling 0 0 0 0 0 2 =
      Except.error
        "Upsampling through more than one level at a time is not currently supported." ∧
    upsample sampleTile unitTiling 0 0 0 0 0 1 = Except.ok none :=
  ⟨(upsample_preconditions sampleTile unitTiling 0 0 0 0 0 2).1 (by norm_num),
   (upsample_preconditions sampleTile unitTiling 0 0 0 0 0 1).2 (by norm_num) rfl⟩

/-- C9 (amended): the asynchronous mesh completion stores the mesh and
drops the buffer; the synchronous variant likewise drops the buffer but —
returning the mesh to its caller — leaves `_mesh` unset; starting a mesh
build touches neither; and no mesh operation restores a dropped buffer. -/
theorem mesh_supersedes_buffer :
    (∀ td r, (createMeshComplete td r).buffer = none ∧ (createMeshComplete td r).mesh = some r) ∧
    (∀ td sk, (createMeshSyncState td sk).buffer = none ∧
      (createMeshSyncState td sk).mesh = td.mesh) ∧
    (∀ td sk, (createMeshStart td sk).buffer = td.buffer ∧
      (createMeshStart td sk).mesh = td.mesh) ∧
    (∀ td sk r, td.buffer = none →
      (createMeshStart td sk).buffer = none ∧ (createMeshComplete td r).buffer = none ∧
      (createMeshSyncState td sk).buffer = none) :=
  ⟨fun _ _ => ⟨rfl, rfl⟩, fun _ _ => ⟨rfl, rfl⟩, fun _ _ => ⟨rfl, rfl⟩,
   fun td sk _ h => ⟨by simp [createMeshStart, h], rfl, rfl⟩⟩

theorem mesh_supersedes_buffer_witness :
    (createMeshStart meshedTile 0).buffer = none ∧
    (createMeshComplete meshedTile flatMesh).buffer = none ∧
    (createMeshSyncState meshedTile 0).buffer = none :=
  mesh_supersedes_buffer.2.2.2 meshedTile 0 flatMesh rfl

/-- C9 counterexample: `_createMeshSync` on a buffered tile drops the
buffer but does not make the mesh present on the instance, refuting the
claim that after the synchronous variant the mesh is present. -/
theorem createMeshSync_leaves_no_mesh :
    (createMeshSyncState sampleTile 0).buffer = none ∧
    (createMeshSyncState sampleTile 0).mesh = none :=
  ⟨rfl, rfl⟩

theorem tidy_keeps_fresh (k : String) (b : ℕ) (tAdd : ℤ) :
    ∀ (ts : List ℤ) (c : TerrainCache), c.terrainCache k = some ⟨b, tAdd⟩ →
      (∀ t ∈ ts, t - tAdd ≤ 10) →
      (ts.foldl TerrainCache.tidy c).terrainCache k = some ⟨b, tAdd⟩ := by
  intro ts
  induction ts with
  | nil => exact fun c hc _ => hc
  | cons t ts ih =>
      intro c hc hts
      refine ih (TerrainCache.tidy c t) ?_ fun t' ht' => hts t' (List.mem_cons_of_mem t ht')
      unfold TerrainCache.tidy
      split
      · have h10 : ¬ t - tAdd > 10 := by
          have := hts t (List.mem_cons_self t ts)
          omega
        simp [hc, h10]
      · exact hc

/-- C6 (amended): an entry added and not consumed survives any sequence of
`tidy` calls made within the 10 second TTL window of its insertion and a
`get` then returns it; and a `tidy` call made more than 10 seconds after
the insertion does evict it provided more than 10 seconds have also
elapsed since the last tidy pass (the `lastTidy` throttle). -/
theorem terrainCache_ttl (c : TerrainCache) (k : String) (b : ℕ) (tAdd : ℤ) :
    (∀ ts : List ℤ, (∀ t ∈ ts, t - tAdd ≤ 10) →
      ((ts.foldl TerrainCache.tidy (c.add tAdd k b)).get k).1 = some b) ∧
    (∀ t : ℤ, t - tAdd > 10 → t - c.lastTidy > 10 →
      ((c.add tAdd k b).tidy t).terrainCache k = none) := by
  constructor
  · intro ts hts
    have h := tidy_keeps_fresh k b tAdd ts (c.add tAdd k b) (by simp [TerrainCache.add]) hts
    simp [TerrainCache.get, h]
  · intro t h1 h2
    unfold TerrainCache.tidy
    rw [if_pos (by simpa [TerrainCache.add] using h2)]
    simp [TerrainCache.add, h1]

theorem terrainCache_ttl_witness :
    (([(6:ℤ)].foldl TerrainCache.tidy (emptyCache.add 0 "k" 3)).get "k").1 = some 3 ∧
    ((emptyCache.add 0 "k" 3).tidy 11).terrainCache "k" = none :=
  ⟨(terrainCache_ttl emptyCache "k" 3 0).1 [6] (by intro t ht; simp at ht; omega),
   (terrainCache_ttl emptyCache "k" 3 0).2 11 (by norm_num) (by norm_num [emptyCache])⟩

/-- C6 counterexample: entry added at time 5; a tidy at time 11 runs (the
pass is due) but keeps the 6-second-old entry and resets `lastTidy`; the
tidy at time 16 — more than 10 seconds after the insertion — is throttled
by `lastTidy` and the entry survives, refuting the claim that a `tidy`
after the TTL window always evicts. -/
theorem tidy_throttled_misses_ttl :
    (16 : ℤ) - 5 > 10 ∧
    ((((emptyCache.add 5 "k" 3).tidy 11).tidy 16).terrainCache "k") = some ⟨3, 5⟩ := by
  exact ⟨by norm_num, rfl⟩

theorem horner_foldl_shift (m : ℚ) (f : ℤ → ℚ) (l : List ℤ) (a : ℚ) :
    l.foldl (fun h p => h * m + f p) a =
      a * m ^ l.length + l.foldl (fun h p => h * m + f p) 0 := by
  induction l generalizing a with
  | nil => simp
  | cons p t ih =>
      simp only [List.foldl_cons, List.length_cons]
      rw [ih (a * m + f p), ih (0 * m + f p)]
      ring

theorem writeDigits_preserve (m : ℚ) (finalPos p : ℤ) (hf : p ≠ finalPos) :
    ∀ (positions : List ℤ), p ∉ positions →
      ∀ (heights : ℤ → ℚ) (divisor h : ℚ),
        writeDigits heights m positions divisor h finalPos p = heights p := by
  intro positions
  induction positions with
  | nil =>
      intro _ heights divisor h
      simp [writeDigits, updateZ, hf]
  | cons q rest ih =>
      intro hp heights divisor h
      have hq : p ≠ q := fun hpq => hp (hpq ▸ List.mem_cons_self q rest)
      have hrest : p ∉ rest := fun hmem => hp (List.mem_cons_of_mem q hmem)
      simp only [writeDigits]
      rw [ih hrest]
      simp [updateZ, hq]

theorem writeDigits_roundtrip (m : ℚ) (hm : m ≠ 0) :
    ∀ (positions : List ℤ) (heights : ℤ → ℚ) (divisor h : ℚ) (finalPos : ℤ),
      positions.Nodup → finalPos ∉ positions → divisor = m ^ positions.length →
      (positions ++ [finalPos]).foldl
        (fun a p => a * m + writeDigits heights m positions divisor h finalPos p) 0 = h := by
  intro positions
  induction positions with
  | nil =>
      intro heights divisor h finalPos _ _ _
      simp [writeDigits, updateZ]
  | cons q rest ih =>
      intro heights divisor h finalPos hnd hnf hdiv
      have hqrest : q ∉ rest := (List.nodup_cons.mp hnd).1
      have hndrest : rest.Nodup := (List.nodup_cons.mp hnd).2
      have hfq : finalPos ≠ q := fun hqq => hnf (hqq ▸ List.mem_cons_self q rest)
      have hfrest : finalPos ∉ rest := fun hmem => hnf (List.mem_cons_of_mem q hmem)
      have hlen : divisor = m ^ (rest.length + 1) := by simpa using hdiv
      have hdiv2 : divisor / m = m ^ rest.length := by
        rw [hlen, pow_succ, mul_div_cancel_right₀ _ hm]
      simp only [writeDigits, List.cons_append, List.foldl_cons]
      rw [writeDigits_preserve m finalPos q (Ne.symm hfq) rest hqrest]
      rw [horner_foldl_shift]
      rw [ih (updateZ heights q _) (divisor / m) _ finalPos hndrest hfrest hdiv2]
      simp only [updateZ, eq_self_iff_true, if_true, List.length_append, List.length_singleton]
      rw [hlen]
      ring

/-- C2: for a valid structure (at least one element per height, nonzero
multiplier, precomputed divisor `elementMultiplier ^ (elementsPerHeight - 1)`
as at the `setHeight` call sites) and any representable integer height in
range, decoding with `getHeight` after encoding with `setHeight` at the same
index returns exactly the encoded height, for either endianness; the final
digit written absorbs the remainder, making reconstruction exact. -/
theorem getHeight_setHeight_roundtrip (heights : ℤ → ℚ) (elementsPerHeight : ℕ)
    (elementMultiplier : ℚ) (stride : ℕ) (isBigEndian : Bool) (index : ℤ) (n : ℕ)
    (heph : 1 ≤ elementsPerHeight) (hm : elementMultiplier ≠ 0)
    (hrange : (n : ℚ) < elementMultiplier ^ elementsPerHeight) :
    getHeight
      (setHeight heights elementsPerHeight elementMultiplier
        (elementMultiplier ^ (elementsPerHeight - 1)) stride isBigEndian index (n : ℚ))
      elementsPerHeight elementMultiplier stride isBigEndian index = (n : ℚ) := by
  obtain ⟨e, rfl⟩ : ∃ e, elementsPerHeight = e + 1 :=
    ⟨elementsPerHeight - 1, (Nat.succ_pred_eq_of_pos heph).symm⟩
  have hinj : Function.Injective (fun i : ℕ => index * (stride : ℤ) + (i : ℤ)) := by
    intro a b hab
    simp only at hab
    omega
  cases isBigEndian
  · -- little-endian
    have hnodup : (((List.range' 1 e).reverse).map
        (fun i : ℕ => index * (stride : ℤ) + (i : ℤ))).Nodup :=
      (List.nodup_reverse.mpr (List.nodup_range' 1 e)).map hinj
    have hmem : (index * (stride : ℤ)) ∉ ((List.range' 1 e).reverse).map
        (fun i : ℕ => index * (stride : ℤ) + (i : ℤ)) := by
      simp only [List.mem_map, List.mem_reverse, List.mem_range'_1, not_exists, not_and]
      intro i hi hEq
      omega
    have hrt := writeDigits_roundtrip elementMultiplier hm
      (((List.range' 1 e).reverse).map (fun i : ℕ => index * (stride : ℤ) + (i : ℤ)))
      heights (elementMultiplier ^ e) (n : ℚ) (index * (stride : ℤ)) hnodup hmem (by simp)
    have h2 : ((List.range (e + 1)).reverse).map
          (fun i : ℕ => index * (stride : ℤ) + (i : ℤ)) =
        (((List.range' 1 e).reverse).map
          (fun i : ℕ => index * (stride : ℤ) + (i : ℤ))) ++ [index * (stride : ℤ)] := by
      rw [List.range_eq_range', List.range'_succ, List.reverse_cons, List.map_append]
      simp
    calc getHeight
          (setHeight heights (e + 1) elementMultiplier (elementMultiplier ^ (e + 1 - 1))
            stride false index (n : ℚ)) (e + 1) elementMultiplier stride false index
        = ((List.range (e + 1)).reverse).foldl
            (fun a (i : ℕ) => a * elementMultiplier +
              writeDigits heights elementMultiplier
                (((List.range' 1 e).reverse).map
                  (fun i : ℕ => index * (stride : ℤ) + (i : ℤ)))
                (elementMultiplier ^ e) (n : ℚ) (index * (stride : ℤ))
                (index * (stride : ℤ) + (i : ℤ))) 0 := rfl
      _ = (((List.range (e + 1)).reverse).map
            (fun i : ℕ => index * (stride : ℤ) + (i : ℤ))).foldl
            (fun a p => a * elementMultiplier +
              writeDigits heights elementMultiplier
                (((List.range' 1 e).reverse).map
                  (fun i : ℕ => index * (stride : ℤ) + (i : ℤ)))
                (elementMultiplier ^ e) (n : ℚ) (index * (stride : ℤ)) p) 0 :=
          (List.foldl_map (fun i : ℕ => index * (stride : ℤ) + (i : ℤ))
            (fun a p => a * elementMultiplier +
              writeDigits heights elementMultiplier
                (((List.range' 1 e).reverse).map
                  (fun i : ℕ => index * (stride : ℤ) + (i : ℤ)))
                (elementMultiplier ^ e) (n : ℚ) (index * (stride : ℤ)) p)
            ((List.range (e + 1)).reverse) 0).symm
      _ = (n : ℚ) := by rw [h2]; exact hrt
  · -- big-endian
    have hnodup : ((List.range e).map
        (fun i : ℕ => index * (stride : ℤ) + (i : ℤ))).Nodup :=
      (List.nodup_range e).map hinj
    have hmem : (index * (stride : ℤ) + (e : ℤ)) ∉ (List.range e).map
        (fun i : ℕ => index * (stride : ℤ) + (i : ℤ)) := by
      simp only [List.mem_map, List.mem_range, not_exists, not_and]
      intro i hi hEq
      omega
    have hrt := writeDigits_roundtrip elementMultiplier hm
      ((List.range e).map (fun i : ℕ => index * (stride : ℤ) + (i : ℤ)))
      heights (elementMultiplier ^ e) (n : ℚ) (index * (stride : ℤ) + (e : ℤ)) hnodup hmem
      (by simp)
    have h2 : (List.range (e + 1)).map (fun i : ℕ => index * (stride : ℤ) + (i : ℤ)) =
        ((List.range e).map (fun i : ℕ => index * (stride : ℤ) + (i : ℤ))) ++
          [index * (stride : ℤ) + (e : ℤ)] := by
      rw [List.range_succ, List.map_append, List.map_singleton]
    calc getHeight
          (setHeight heights (e + 1) elementMultiplier (elementMultiplier ^ (e + 1 - 1))
            stride true index (n : ℚ)) (e + 1) elementMultiplier stride true index
        = (List.range (e + 1)).foldl
            (fun a (i : ℕ) => a * elementMultiplier +
              writeDigits heights elementMultiplier
                ((List.range e).map (fun i : ℕ => index * (stride : ℤ) + (i : ℤ)))
                (elementMultiplier ^ e) (n : ℚ) (index * (stride : ℤ) + (e : ℤ))
                (index * (stride : ℤ) + (i : ℤ))) 0 := rfl
      _ = ((List.range (e + 1)).map (fun i : ℕ => index * (stride : ℤ) + (i : ℤ))).foldl
            (fun a p => a * elementMultiplier +
              writeDigits heights elementMultiplier
                ((List.range e).map (fun i : ℕ => index * (stride : ℤ) + (i : ℤ)))
                (elementMultiplier ^ e) (n : ℚ) (index * (stride : ℤ) + (e : ℤ)) p) 0 :=
          (List.foldl_map (fun i : ℕ => index * (stride : ℤ) + (i : ℤ))
            (fun a p => a * elementMultiplier +
              writeDigits heights elementMultiplier
                ((List.range e).map (fun i : ℕ => index * (stride : ℤ) + (i : ℤ)))
                (elementMultiplier ^ e) (n : ℚ) (index * (stride : ℤ) + (e : ℤ)) p)
            (List.range (e + 1)) 0).symm
      _ = (n : ℚ) := by rw [h2]; exact hrt

theorem getHeight_setHeight_roundtrip_witness :
    getHeight (setHeight (fun _ => 0) 2 256 (256 ^ (2 - 1)) 1 false 3 ((60000 : ℕ) : ℚ))
      2 256 1 false 3 = ((60000 : ℕ) : ℚ) :=
  getHeight_setHeight_roundtrip (fun _ => 0) 2 256 1 false 3 60000 (by norm_num)
    (by norm_num) (by norm_num)

/-- C8: on the 2 x 2 sample raster with heights 10, 20 (north row), 30, 40
(south row) and the default structure, `interpolateHeight` at the exact
center of any tile rectangle returns 25: the center lies on the
`dx = dy` diagonal, which is resolved by the upper-left triangle. -/
theorem interpolateHeight_center (r : Rect) (hWE : r.west < r.east) (hSN : r.south < r.north) :
    HeightmapTerrainData.interpolateHeight sampleTile r
      ((r.west + r.east) / 2) ((r.south + r.north) / 2) = 25 := by
  have hE : r.east - r.west ≠ 0 := by intro h; nlinarith
  have hN : r.north - r.south ≠ 0 := by intro h; nlinarith
  have hfw : ((r.west + r.east) / 2 - r.west) * ((2 : ℚ) - 1) / (r.east - r.west) = 1 / 2 := by
    field_simp
    ring
  have hfs : ((r.south + r.north) / 2 - r.south) * ((2 : ℚ) - 1) / (r.north - r.south)
      = 1 / 2 := by
    field_simp
    ring
  simp only [HeightmapTerrainData.interpolateHeight, sampleTile, defaultStructure,
    interpolateHeightFn, getHeight, triangleInterpolateHeight, Option.getD, Nat.cast_ofNat]
  rw [hfw, hfs]
  norm_num [truncJS, sampleBuffer, List.range_succ, List.range_zero]

theorem interpolateHeight_center_witness :
    HeightmapTerrainData.interpolateHeight sampleTile
      { west := 0, south := 0, east := 2, north := 2 }
      ((0 + 2) / 2) ((0 + 2) / 2) = 25 :=
  interpolateHeight_center { west := 0, south := 0, east := 2, north := 2 }
    (show (0 : ℚ) < 2 by norm_num) (show (0 : ℚ) < 2 by norm_num)

/-- C1: when a shared in-flight promise is already registered for the
resolved fetch target `q`, a `requestTileGeometry` call that reaches the
load section for `q` attaches to that existing promise: it returns the
registered promise id, is not marked as having created a new one, leaves
the promise registry unchanged and creates no new fetch + decode pipeline
(`fetchCount` is unchanged), so at most one fetch + decode is in flight
per target and all such callers observe the single shared outcome. -/
theorem requestTileGeometry_single_flight (s : ProviderState) (quadKey : String)
    (request : ℕ) (now : ℤ) (thr : Bool) (q : String) (p pid : ℕ) (isNew : Bool)
    (s' : ProviderState)
    (hreg : s.terrainPromises q = some p)
    (hcall : requestTileGeometry s quadKey request now thr =
      (RequestOutcome.attached q pid isNew, s')) :
    pid = p ∧ isNew = false ∧ s'.terrainPromises = s.terrainPromises ∧
      s'.fetchCount = s.fetchCount := by
  unfold requestTileGeometry at hcall
  dsimp only at hcall
  repeat' split at hcall
  all_goals try (exfalso; simp at hcall; done)
  · rename_i x0 pid0 hpro
    simp only [Prod.mk.injEq, RequestOutcome.attached.injEq] at hcall
    obtain ⟨⟨rfl, rfl, rfl⟩, rfl⟩ := hcall
    exact ⟨Option.some.inj (hpro.symm.trans hreg), rfl, rfl, rfl⟩
  · rename_i x0 hpro hthr
    simp only [Prod.mk.injEq, RequestOutcome.attached.injEq] at hcall
    obtain ⟨⟨rfl, hb, hc⟩, hd⟩ := hcall
    rw [hreg] at hpro
    simp at hpro

theorem requestTileGeometry_single_flight_witness :
    (7 : ℕ) = 7 ∧ false = false ∧
      (requestTileGeometry providerWithPromise "0" 1 0 false).2.terrainPromises =
        providerWithPromise.terrainPromises ∧
      (requestTileGeometry providerWithPromise "0" 1 0 false).2.fetchCount =
        providerWithPromise.fetchCount :=
  requestTileGeometry_single_flight providerWithPromise "0" 1 0 false "0" 7 7 false
    (requestTileGeometry providerWithPromise "0" 1 0 false).2 rfl rfl

theorem toDigitsCore_length_le (b : ℕ) :
    ∀ (fuel n : ℕ) (ds : List Char), ds.length ≤ (Nat.toDigitsCore b fuel n ds).length := by
  intro fuel
  induction fuel with
  | zero => intro n ds; exact Nat.le_refl _
  | succ f ih =>
      intro n ds
      simp only [Nat.toDigitsCore]
      split
      · exact Nat.le_succ _
      · exact le_trans (Nat.le_succ _) (ih (n / b) ((n % b).digitChar :: ds))

theorem one_le_toDigits_length (b n : ℕ) : 1 ≤ (Nat.toDigits b n).length := by
  unfold Nat.toDigits
  simp only [Nat.toDigitsCore]
  split
  · exact Nat.le_refl 1
  · exact toDigitsCore_length_le b n (n / b) [Nat.digitChar (n % b)]

theorem childKey_ne (q : String) (j : ℕ) : q ++ toString j ≠ q := by
  intro h
  have hd : q.data ++ Nat.toDigits 10 j = q.data ++ [] := by
    have := congrArg String.data h
    simpa using this
  have hnil : Nat.toDigits 10 j = [] := List.append_cancel_left hd
  have h1 := one_le_toDigits_length 10 j
  rw [hnil] at h1
  simp at h1

theorem stateOf_onFetchSuccessStart (s : ProviderState) (q : String) (info1 : TileInfo)
    (b : ℕ) (now : ℤ) (k : String) :
    stateOf (onFetchSuccessStart s q info1 b now) k =
      if k = q then some info1.terrainState else stateOf s k := by
  simp only [onFetchSuccessStart, stateOf, updateMap]
  split
  · rfl
  · rfl

theorem childStep_stateOf (q : String) (tiles : List ℕ) (now : ℤ) (prov : ℕ)
    (s : ProviderState) (j : ℕ) (k : String) :
    stateOf (childStep q tiles now prov s j) k = stateOf s k ∨
      stateOf (childStep q tiles now prov s j) k = some (some TState.parent) := by
  unfold childStep
  dsimp only
  split
  · by_cases hk : k = q ++ toString j
    · subst hk
      right
      simp [stateOf, updateMap]
    · left
      simp [stateOf, updateMap, hk]
  · exact Or.inl rfl

theorem childStep_stateOf_ne (q : String) (tiles : List ℕ) (now : ℤ) (prov : ℕ)
    (s : ProviderState) (j : ℕ) (k : String) (hk : k ≠ q ++ toString j) :
    stateOf (childStep q tiles now prov s j) k = stateOf s k := by
  unfold childStep
  dsimp only
  split
  · simp [stateOf, updateMap, hk]
  · rfl

theorem foldl_childStep_stateOf (q : String) (tiles : List ℕ) (now : ℤ) (prov : ℕ)
    (k : String) :
    ∀ (l : List ℕ) (s : ProviderState),
      stateOf (l.foldl (childStep q tiles now prov) s) k = stateOf s k ∨
        stateOf (l.foldl (childStep q tiles now prov) s) k = some (some TState.parent) := by
  intro l
  induction l with
  | nil => intro s; exact Or.inl rfl
  | cons j t ih =>
      intro s
      rcases ih (childStep q tiles now prov s j) with h | h
      · rcases childStep_stateOf q tiles now prov s j k with h2 | h2
        · exact Or.inl (by rw [List.foldl_cons, h, h2])
        · exact Or.inr (by rw [List.foldl_cons, h, h2])
      · exact Or.inr (by rw [List.foldl_cons]; exact h)

theorem foldl_childStep_stateOf_q (q : String) (tiles : List ℕ) (now : ℤ) (prov : ℕ) :
    ∀ (l : List ℕ) (s : ProviderState),
      stateOf (l.foldl (childStep q tiles now prov) s) q = stateOf s q := by
  intro l
  induction l with
  | nil => intro s; rfl
  | cons j t ih =>
      intro s
      rw [List.foldl_cons, ih, childStep_stateOf_ne q tiles now prov s j q
        (fun h => childKey_ne q j h.symm)]

theorem stateOf_requestTileGeometry (s : ProviderState) (quadKey : String) (request : ℕ)
    (now : ℤ) (thr : Bool) (k : String) :
    stateOf (requestTileGeometry s quadKey request now thr).2 k = stateOf s k ∨
      (stateOf s k = some none ∧
        stateOf (requestTileGeometry s quadKey request now thr).2 k =
          some (some TState.unknown)) := by
  have hti : (requestTileGeometry s quadKey request now thr).2.tileInfo = s.tileInfo ∨
      (∃ info0, s.tileInfo quadKey = some info0 ∧
        (requestTileGeometry s quadKey request now thr).2.tileInfo =
          updateMap s.tileInfo quadKey
            (some { info0 with
                      terrainState := some (info0.terrainState.getD TState.unknown) })) := by
    unfold requestTileGeometry
    dsimp only
    repeat' split
    all_goals first
      | exact Or.inl rfl
      | exact Or.inr ⟨_, by assumption, rfl⟩
  rcases hti with h | ⟨info0, hq, h⟩
  · exact Or.inl (by rw [stateOf, h, stateOf])
  · by_cases hk : k = quadKey
    · subst hk
      rcases hts : info0.terrainState with _ | t
      · right
        constructor
        · rw [stateOf, hq]
          simp [hts]
        · rw [stateOf, h]
          simp [updateMap, hts]
      · left
        rw [stateOf, h, stateOf, hq]
        simp [updateMap, hts]
    · exact Or.inl (by rw [stateOf, h, stateOf]; simp [updateMap, hk])

theorem stateOf_getTileDataAvailable (s : ProviderState) (quadKey : String) (k : String) :
    stateOf (getTileDataAvailable s quadKey).2 k = stateOf s k ∨
      ((stateOf s quadKey = some none ∨ stateOf s quadKey = some (some TState.unknown)) ∧
        k = quadKey ∧
        stateOf (getTileDataAvailable s quadKey).2 k = some (some TState.unknown)) := by
  have hti : (getTileDataAvailable s quadKey).2.tileInfo = s.tileInfo ∨
      (∃ info0, s.tileInfo quadKey = some info0 ∧
        (info0.terrainState = none ∨ info0.terrainState = some TState.unknown) ∧
        (getTileDataAvailable s quadKey).2.tileInfo =
          updateMap s.tileInfo quadKey
            (some { info0 with terrainState := some TState.unknown })) := by
    unfold getTileDataAvailable
    dsimp only
    repeat' split
    all_goals first
      | exact Or.inl rfl
      | exact Or.inr ⟨_, by assumption, by assumption, rfl⟩
  rcases hti with h | ⟨info0, hq, hun, h⟩
  · exact Or.inl (by rw [stateOf, h, stateOf])
  · by_cases hk : k = quadKey
    · subst hk
      right
      refine ⟨?_, rfl, ?_⟩
      · rcases hun with hun | hun
        · exact Or.inl (by rw [stateOf, hq]; simp [hun])
        · exact Or.inr (by rw [stateOf, hq]; simp [hun])
      · rw [stateOf, h]
        simp [updateMap]
    · exact Or.inl (by rw [stateOf, h, stateOf]; simp [updateMap, hk])

theorem onFetchSuccess_stateOf (s : ProviderState) (q : String) (tiles : List ℕ) (now : ℤ)
    (k : String) :
    stateOf ((onFetchSuccess s q tiles now).getD s) k = stateOf s k ∨
      (k = q ∧ stateOf ((onFetchSuccess s q tiles now).getD s) k = some (some TState.self_)) ∨
      stateOf ((onFetchSuccess s q tiles now).getD s) k = some (some TState.parent) := by
  unfold onFetchSuccess
  dsimp only
  split
  · exact Or.inl rfl
  · rename_i requestedInfo heq
    simp only [Option.getD_some]
    rcases foldl_childStep_stateOf q tiles now requestedInfo.terrainProvider k
        (List.range (tiles.length - 1))
        (onFetchSuccessStart s q { requestedInfo with terrainState := some TState.self_ }
          (tiles.getD 0 0) now) with h | h
    · rw [h, stateOf_onFetchSuccessStart]
      by_cases hk : k = q
      · subst hk
        exact Or.inr (Or.inl ⟨rfl, by simp⟩)
      · rw [if_neg hk]
        exact Or.inl rfl
    · exact Or.inr (Or.inr h)

theorem onFetchSuccess_self (s : ProviderState) (q : String) (tiles : List ℕ) (now : ℤ)
    (s' : ProviderState) (h : onFetchSuccess s q tiles now = some s') :
    stateOf s' q = some (some TState.self_) := by
  unfold onFetchSuccess at h
  dsimp only at h
  split at h
  · exact Option.noConfusion h
  · rename_i requestedInfo heq
    injection h with h'
    rw [← h', foldl_childStep_stateOf_q, stateOf_onFetchSuccessStart]
    simp

theorem onCallerReject_stateOf (s : ProviderState) (quadKey : String) (c : Bool)
    (k : String) :
    onCallerReject s quadKey true = s ∧
      (stateOf (onCallerReject s quadKey c) k = stateOf s k ∨
        (k = quadKey ∧ stateOf (onCallerReject s quadKey c) k = some (some TState.none_))) := by
  constructor
  · simp [onCallerReject]
  · unfold onCallerReject
    split
    · exact Or.inl rfl
    · split
      · rename_i info heq
        by_cases hk : k = quadKey
        · subst hk
          exact Or.inr ⟨rfl, by simp [stateOf, updateMap]⟩
        · exact Or.inl (by simp [stateOf, updateMap, hk])
      · exact Or.inl rfl

/-- C5 (amended): characterization of every terrain-state write the provider
performs.  The synchronous request path only initializes an undefined state
to `Unknown`; availability probing only initializes an undefined or
`Unknown` state to `Unknown`; a decode success sets the fetch target to
`Self` and packet children to `Parent` regardless of their previous states;
a non-cancelled request failure sets the requesting node to `None`
regardless of its previous state (a cancelled one changes nothing).  In
particular `Unknown` only ever moves to `Self`, `Parent` or `None`, but the
failure and success writes can move a node out of a terminal state. -/
theorem terrainState_transitions :
    (∀ s quadKey request now thr k,
      stateOf (requestTileGeometry s quadKey request now thr).2 k = stateOf s k ∨
        (stateOf s k = some none ∧
          stateOf (requestTileGeometry s quadKey request now thr).2 k =
            some (some TState.unknown))) ∧
    (∀ s quadKey k,
      stateOf (getTileDataAvailable s quadKey).2 k = stateOf s k ∨
        ((stateOf s quadKey = some none ∨ stateOf s quadKey = some (some TState.unknown)) ∧
          k = quadKey ∧
          stateOf (getTileDataAvailable s quadKey).2 k = some (some TState.unknown))) ∧
    (∀ s q tiles now k,
      stateOf ((onFetchSuccess s q tiles now).getD s) k = stateOf s k ∨
        (k = q ∧
          stateOf ((onFetchSuccess s q tiles now).getD s) k = some (some TState.self_)) ∨
        stateOf ((onFetchSuccess s q tiles now).getD s) k = some (some TState.parent)) ∧
    (∀ s q tiles now s', onFetchSuccess s q tiles now = some s' →
      stateOf s' q = some (some TState.self_)) ∧
    (∀ s quadKey c k,
      onCallerReject s quadKey true = s ∧
        (stateOf (onCallerReject s quadKey c) k = stateOf s k ∨
          (k = quadKey ∧
            stateOf (onCallerReject s quadKey c) k = some (some TState.none_)))) :=
  ⟨stateOf_requestTileGeometry, stateOf_getTileDataAvailable, onFetchSuccess_stateOf,
   onFetchSuccess_self, onCallerReject_stateOf⟩

theorem terrainState_transitions_witness :
    (stateOf (requestTileGeometry providerWithPromise "0" 1 0 false).2 "0" =
        stateOf providerWithPromise "0" ∨
      (stateOf providerWithPromise "0" = some none ∧
        stateOf (requestTileGeometry providerWithPromise "0" 1 0 false).2 "0" =
          some (some TState.unknown))) ∧
    (stateOf (getTileDataAvailable providerWithPromise "0").2 "0" =
        stateOf providerWithPromise "0" ∨
      ((stateOf providerWithPromise "0" = some none ∨
          stateOf providerWithPromise "0" = some (some TState.unknown)) ∧
        "0" = "0" ∧
        stateOf (getTileDataAvailable providerWithPromise "0").2 "0" =
          some (some TState.unknown))) ∧
    (stateOf ((onFetchSuccess providerWithPromise "0" [5] 0).getD providerWithPromise) "0" =
        stateOf providerWithPromise "0" ∨
      ("0" = "0" ∧
        stateOf ((onFetchSuccess providerWithPromise "0" [5] 0).getD providerWithPromise) "0" =
          some (some TState.self_)) ∨
      stateOf ((onFetchSuccess providerWithPromise "0" [5] 0).getD providerWithPromise) "0" =
        some (some TState.parent)) ∧
    stateOf ((onFetchSuccess providerWithPromise "0" [5] 0).getD providerWithPromise) "0" =
      some (some TState.self_) ∧
    (onCallerReject providerWithPromise "0" true = providerWithPromise ∧
      (stateOf (onCallerReject providerWithPromise "0" false) "0" =
          stateOf providerWithPromise "0" ∨
        ("0" = "0" ∧
          stateOf (onCallerReject providerWithPromise "0" false) "0" =
            some (some TState.none_)))) :=
  ⟨terrainState_transitions.1 providerWithPromise "0" 1 0 false "0",
   terrainState_transitions.2.1 providerWithPromise "0" "0",
   terrainState_transitions.2.2.1 providerWithPromise "0" [5] 0 "0",
   terrainState_transitions.2.2.2.1 providerWithPromise "0" [5] 0
     ((onFetchSuccess providerWithPromise "0" [5] 0).getD providerWithPromise) rfl,
   terrainState_transitions.2.2.2.2 providerWithPromise "0" false "0"⟩

/-- C5 counterexample: the node at quad key `0` is in the terminal `SELF`
state, yet a non-cancelled failure of its refetch (the `otherwise`
continuation) moves it to `NONE` — an operation of the provider moves a
node out of a terminal state, refuting the claimed invariant. -/
theorem failure_moves_node_out_of_terminal :
    stateOf providerWithPromise "0" = some (some TState.self_) ∧
    stateOf (onCallerReject providerWithPromise "0" false) "0" =
      some (some TState.none_) :=
  ⟨rfl, rfl⟩
